import Mathlib

/-!
# Verification of the product CRUD handlers (`src/handlers.ts`)

A shallow embedding of the five AWS-Lambda request handlers
(`createProduct`, `getProduct`, `updateProduct`, `deleteProduct`,
`listProduct`) together with their helpers (`fetchProductById`,
`handleError`, the shared `headers` constant and the yup `schema`).

Modelling decisions:
* JSON values are the inductive `Json`; JSON numbers are rationals.
* The DynamoDB table `ProductsTable` is an association list from the
  `productID` string key to the stored item; `docClient.get / put /
  delete` become `dbGet / dbPut / dbDelete`.
* An incoming `APIGatewayProxyEvent` carries `pathId` (modelling
  `event.pathParameters?.id`) and `body`, which models the outcome of
  `JSON.parse(event.body)`: `Except.ok j` when the raw body text parses
  to the value `j`, `Except.error m` when `JSON.parse` raises
  `SyntaxError` with message `m` (the parser itself is a JS builtin and
  is not re-implemented).
* The exceptions a handler can catch are the inductive `HandlerErr`:
  yup validation failure, the JSON parse failure, and the custom
  `HttpError`.  Handlers that write to the store return the response
  together with the new store (explicit state passing).
* The yup schema `{name: string.required, description: string.required,
  price: number.required, available: boolean.required}` with
  `abortEarly: false` is embedded as `validateProduct`, which collects
  one message per violated field in schema order, applied after yup's
  implicit cast of primitives: a string field also accepts numbers and
  booleans (cast via `toString`), a number field also accepts numeric
  strings (whitespace stripped, then the JS numeric conversion), a
  boolean field also accepts `"true"/"false"/"1"/"0"` (case-insensitive)
  and the numbers 1 and 0.  `required` rejects missing and `null`
  values and, for the string fields, the empty string.  Type-error
  message text elides yup's value-interpolating suffix.
* The `handleError` fall-through (`return e`) that hands a foreign,
  untranslated error (e.g. an AWS-SDK rejection) back verbatim is the
  `unhandled` branch; the foreign error is modelled as the value the
  source's `as APIGatewayProxyResult` cast makes of it.
-/

/-- A JSON value (numbers are modelled as rationals). -/
inductive Json where
  | null
  | bool (b : Bool)
  | num (q : Rat)
  | str (s : String)
  | arr (elems : List Json)
  | obj (fields : List (String × Json))

/-- First binding of `key` in an object's field list (JS objects have
no duplicate keys, so first and last coincide on real inputs). -/
def lookupField : List (String × Json) → String → Option Json
  | [], _ => none
  | (k, v) :: rest, key => if k = key then some v else lookupField rest key

/-- Read a property of a JSON value, as `item.productID` does. -/
def getField : Json → String → Option Json
  | Json.obj fs, key => lookupField fs key
  | _, _ => none

/-- Replace the first binding of `key`, or append it; this is the field
list of the JS spread `\x7b...obj, key: v\x7d`. -/
def setFieldList : List (String × Json) → String → Json → List (String × Json)
  | [], key, v => [(key, v)]
  | (k, v') :: rest, key, v =>
    if k = key then (key, v) :: rest else (k, v') :: setFieldList rest key v

/-- The JS object spread `\x7b...j, key: v\x7d`: sets (or overwrites)
property `key`.  On a non-object the spread contributes no fields, so
only the explicit property remains; the handlers only reach this after
validation, which rules the non-object case out. -/
def setField : Json → String → Json → Json
  | Json.obj fs, key, v => Json.obj (setFieldList fs key v)
  | _, key, v => Json.obj [(key, v)]

/-- The characters a JSON string serializer emits for one character
(quotes and backslashes are escaped). -/
def escapeChar (c : Char) : List Char :=
  if c = '"' then ['\\', '"'] else if c = '\\' then ['\\', '\\'] else [c]

def escapeChars : List Char → List Char
  | [] => []
  | c :: cs => escapeChar c ++ escapeChars cs

/-- A JSON string literal with surrounding quotes. -/
def quoteString (s : String) : String :=
  String.mk ('"' :: (escapeChars s.data ++ ['"']))

/-- Rendering of a JSON number (integers print as integers; the exact
text of non-integer numbers is not observable in any claim). -/
def numToString (q : Rat) : String :=
  if q.den = 1 then toString q.num else toString q.num ++ "/" ++ toString q.den

mutual
/-- `JSON.stringify` on the embedded values. -/
def stringify : Json → String
  | Json.null => "null"
  | Json.bool b => cond b "true" "false"
  | Json.num q => numToString q
  | Json.str s => quoteString s
  | Json.arr es => "[" ++ stringifyElems es ++ "]"
  | Json.obj fs => "\x7b" ++ stringifyFields fs ++ "\x7d"

def stringifyElems : List Json → String
  | [] => ""
  | [j] => stringify j
  | j :: rest => stringify j ++ "," ++ stringifyElems rest

def stringifyFields : List (String × Json) → String
  | [] => ""
  | [(k, v)] => quoteString k ++ ":" ++ stringify v
  | (k, v) :: rest => quoteString k ++ ":" ++ stringify v ++ "," ++ stringifyFields rest
end

/-- The DynamoDB table `ProductsTable`: an association list from the
`productID` key to the stored item. -/
abbrev Store : Type := List (String × Json)

/-- `docClient.get(\x7bTableName, Key: \x7bproductID: id\x7d\x7d)`:
`output.Item` — the stored item for that key, if any. -/
def dbGet : Store → String → Option Json
  | [], _ => none
  | (k, item) :: rest, id => if k = id then some item else dbGet rest id

/-- `docClient.put(\x7bTableName, Item: item\x7d)`: stores `item` under
its `productID` attribute, overwriting any item with the same key.  (If
the attribute were absent DynamoDB would reject the call; both call
sites attach it just before.) -/
def dbPut (store : Store) (item : Json) : Store :=
  match getField item "productID" with
  | some (Json.str key) => (key, item) :: List.filter (fun e => ¬ (e.1 = key)) store
  | _ => store

/-- `docClient.delete(\x7bTableName, Key: \x7bproductID: id\x7d\x7d)`. -/
def dbDelete : Store → String → Store
  | [], _ => []
  | (k, item) :: rest, id =>
    if k = id then dbDelete rest id else (k, item) :: dbDelete rest id

/-- The incoming request: `pathId` models `event.pathParameters?.id`;
`body` models the outcome of `JSON.parse(event.body)` (`ok` = the
parsed value, `error` = the `SyntaxError` message). -/
structure APIGatewayProxyEvent where
  pathId : String
  body : Except String Json

/-- The response shape returned by every handler. -/
structure APIGatewayProxyResult where
  statusCode : Nat
  headers : List (String × String)
  body : String
deriving DecidableEq

/-- The shared `headers` constant attached to every response. -/
def headers : List (String × String) := [("content-type", "application/json")]

/-- The exceptions a handler can catch: a yup `ValidationError`
(carrying `e.errors`, all messages, since `abortEarly: false`), the
`SyntaxError` raised by `JSON.parse`, the custom `HttpError` (carrying
a status code and the body object given to its constructor, whose
`message` is that body stringified), and any foreign, untranslated
error — an AWS-SDK rejection of an awaited `docClient` call — which
the source returns verbatim, so it is modelled directly as the value
its cast to the response type yields. -/
inductive HandlerErr where
  | validationFailed (errors : List String)
  | malformedJson (message : String)
  | http (statusCode : Nat) (errBody : Json)
  | unhandled (e : APIGatewayProxyResult)

/-- `handleError`: translates a caught exception to a response; the
final fall-through (`return e`) hands a foreign error back unchanged,
attaching nothing — no status mapping, no headers. -/
def handleError : HandlerErr → APIGatewayProxyResult
  | HandlerErr.validationFailed errs =>
    { statusCode := 400, headers := headers,
      body := stringify (Json.obj [("errors", Json.arr (errs.map Json.str))]) }
  | HandlerErr.malformedJson m =>
    { statusCode := 400, headers := headers,
      body := stringify (Json.obj [("errors", Json.str ("invalid request body format : " ++ m))]) }
  | HandlerErr.http code b =>
    { statusCode := code, headers := headers, body := stringify b }
  | HandlerErr.unhandled e => e

/-- `fetchProductById`: `get` the item; throw `HttpError(404,
\x7berror: "not found"\x7d)` when `output.Item` is absent. -/
def fetchProductById (store : Store) (id : String) : Except HandlerErr Json :=
  match dbGet store id with
  | none => Except.error (HandlerErr.http 404 (Json.obj [("error", Json.str "not found")]))
  | some item => Except.ok item

/-- JS whitespace (the `\s` class on the code points arising here):
yup's number cast strips these from a string before converting. -/
def isJsSpace (c : Char) : Bool :=
  c = ' ' || c = '\t' || c = '\n' || c = '\r' || c = '\x0b' || c = '\x0c'
    || c = '\u00A0' || c = '\uFEFF'

def isHexDigitChar (c : Char) : Bool :=
  c.isDigit || (decide (97 ≤ c.toNat) && decide (c.toNat ≤ 102))
    || (decide (65 ≤ c.toNat) && decide (c.toNat ≤ 70))

def isOctalDigitChar (c : Char) : Bool :=
  decide (48 ≤ c.toNat) && decide (c.toNat ≤ 55)

def isBinaryDigitChar (c : Char) : Bool :=
  c = '0' || c = '1'

/-- An optionally signed, non-empty digit run (a decimal exponent). -/
def isSignedDigits : List Char → Bool
  | [] => false
  | '+' :: rest => !rest.isEmpty && rest.all Char.isDigit
  | '-' :: rest => !rest.isEmpty && rest.all Char.isDigit
  | cs => !cs.isEmpty && cs.all Char.isDigit

/-- Nothing, or a well-formed exponent suffix `e`/`E` + signed digits. -/
def isExpTail : List Char → Bool
  | [] => true
  | 'e' :: rest => isSignedDigits rest
  | 'E' :: rest => isSignedDigits rest
  | _ => false

/-- An unsigned JS decimal literal: digits with an optional fractional
part and exponent (`"1"`, `"1.5"`, `"1."`, `".5"`, `"1.5e-2"`). -/
def isUnsignedDecimal (cs : List Char) : Bool :=
  match cs.span Char.isDigit with
  | (intPart, []) => !intPart.isEmpty
  | (intPart, '.' :: rest) =>
    match rest.span Char.isDigit with
    | (fracPart, rest2) => (!intPart.isEmpty || !fracPart.isEmpty) && isExpTail rest2
  | (intPart, rest) => !intPart.isEmpty && isExpTail rest

/-- Whether the JS numeric conversion of this (already
whitespace-stripped, non-empty at success) character run yields a
number rather than `NaN`: decimal and scientific forms with an
optional sign, `Infinity`, and the unsigned `0x`/`0o`/`0b` radix
forms. -/
def isJsNumericString : List Char → Bool
  | [] => false
  | '0' :: 'x' :: rest => !rest.isEmpty && rest.all isHexDigitChar
  | '0' :: 'X' :: rest => !rest.isEmpty && rest.all isHexDigitChar
  | '0' :: 'o' :: rest => !rest.isEmpty && rest.all isOctalDigitChar
  | '0' :: 'O' :: rest => !rest.isEmpty && rest.all isOctalDigitChar
  | '0' :: 'b' :: rest => !rest.isEmpty && rest.all isBinaryDigitChar
  | '0' :: 'B' :: rest => !rest.isEmpty && rest.all isBinaryDigitChar
  | '+' :: rest => isUnsignedDecimal rest || rest == "Infinity".data
  | '-' :: rest => isUnsignedDecimal rest || rest == "Infinity".data
  | cs => isUnsignedDecimal cs || cs == "Infinity".data

/-- yup's number cast on a string value: all whitespace is stripped,
the empty remainder is `NaN`, anything else goes through the JS
numeric conversion; `true` means the cast yields a (non-`NaN`)
number. -/
def numericCast (s : String) : Bool :=
  isJsNumericString (s.data.filter (fun c => !isJsSpace c))

/-- One yup string field with `.required()`, on the field named `f`.
The cast lets numbers and booleans through via `toString` (`5` becomes
`"5"`); arrays are returned uncast by yup's transform and fail the
type check, and the JSON containers are treated alike here.  Missing
and `null` values and the (cast-stable) empty string fail
`required`. -/
def checkString (f : String) : Option Json → List String
  | none => [f ++ " is a required field"]
  | some Json.null => [f ++ " is a required field"]
  | some (Json.str "") => [f ++ " is a required field"]
  | some (Json.str _) => []
  | some (Json.num _) => []
  | some (Json.bool _) => []
  | some _ => [f ++ " must be a string type"]

/-- One yup number field with `.required()`: numbers pass, and so do
strings the numeric cast converts (`"1.5"`); a string whose conversion
is `NaN`, and booleans and containers (whose cast fails), are type
errors. -/
def checkNumber (f : String) : Option Json → List String
  | none => [f ++ " is a required field"]
  | some Json.null => [f ++ " is a required field"]
  | some (Json.num _) => []
  | some (Json.str s) => if numericCast s then [] else [f ++ " must be a number type"]
  | some _ => [f ++ " must be a number type"]

/-- One yup boolean field with `.required()`: booleans pass, and so do
the values whose string rendering matches yup's `/^(true|1)$/i` or
`/^(false|0)$/i` casts — the strings `"true"/"false"/"1"/"0"` in any
letter case and the numbers 1 and 0. -/
def checkBoolean (f : String) : Option Json → List String
  | none => [f ++ " is a required field"]
  | some Json.null => [f ++ " is a required field"]
  | some (Json.bool _) => []
  | some (Json.str s) =>
    if s.toLower = "true" ∨ s.toLower = "false" ∨ s = "1" ∨ s = "0" then []
    else [f ++ " must be a boolean type"]
  | some (Json.num q) =>
    if q = 1 ∨ q = 0 then [] else [f ++ " must be a boolean type"]
  | some _ => [f ++ " must be a boolean type"]

/-- `schema.validate(reqBody, \x7babortEarly: false\x7d)` for the yup
schema of `handlers.ts`: the collected list of violation messages, one
per violated field, in schema order; `[]` means the body is valid. -/
def validateProduct : Json → List String
  | Json.obj fs =>
    checkString "name" (lookupField fs "name")
      ++ checkString "description" (lookupField fs "description")
      ++ checkNumber "price" (lookupField fs "price")
      ++ checkBoolean "available" (lookupField fs "available")
  | _ => ["this must be a object type"]

/-- `v4()`: a version-4 UUID rendered from 122 free bits.  The model is
a deterministic function of the bits drawn; the handlers take the drawn
value as an explicit argument. -/
def hexDigit (n : Nat) : Char :=
  if n < 10 then Char.ofNat (48 + n) else Char.ofNat (87 + n)

def hexString : Nat → Nat → String
  | 0, _ => ""
  | w + 1, v => hexString w (v / 16) ++ String.mk [hexDigit (v % 16)]

def uuidv4 (n : Nat) : String :=
  hexString 8 (n / 2 ^ 90) ++ "-" ++ hexString 4 (n / 2 ^ 74 % 2 ^ 16) ++ "-4"
    ++ hexString 3 (n / 2 ^ 62 % 2 ^ 12) ++ "-" ++ String.mk [hexDigit (8 + n / 2 ^ 60 % 4)]
    ++ hexString 3 (n / 2 ^ 48 % 2 ^ 12) ++ "-" ++ hexString 12 (n % 2 ^ 48)

/-- `createProduct`: parse the body, validate it, attach a fresh
`productID`, persist, answer 201 with the stored record; exceptions go
through `handleError`.  `freshId` is the value drawn by `v4()`; the
store is passed and returned explicitly. -/
def createProduct (freshId : String) (event : APIGatewayProxyEvent) (store : Store) :
    APIGatewayProxyResult × Store :=
  match event.body with
  | Except.error m => (handleError (HandlerErr.malformedJson m), store)
  | Except.ok reqBody =>
    match validateProduct reqBody with
    | e :: es => (handleError (HandlerErr.validationFailed (e :: es)), store)
    | [] =>
      let product := setField reqBody "productID" (Json.str freshId)
      ({ statusCode := 201, headers := headers, body := stringify product },
        dbPut store product)

/-- `getProduct`: fetch by the path identifier; 200 with the record, or
the `HttpError` translated (its own `catch` block repeats exactly the
`HttpError` branch of `handleError`). -/
def getProduct (event : APIGatewayProxyEvent) (store : Store) : APIGatewayProxyResult :=
  match fetchProductById store event.pathId with
  | Except.error e => handleError e
  | Except.ok product =>
    { statusCode := 200, headers := headers, body := stringify product }

/-- `updateProduct`: confirm existence, parse, validate, overwrite with
`productID` re-attached from the path, answer 200. -/
def updateProduct (event : APIGatewayProxyEvent) (store : Store) :
    APIGatewayProxyResult × Store :=
  match fetchProductById store event.pathId with
  | Except.error e => (handleError e, store)
  | Except.ok _ =>
    match event.body with
    | Except.error m => (handleError (HandlerErr.malformedJson m), store)
    | Except.ok reqBody =>
      match validateProduct reqBody with
      | e :: es => (handleError (HandlerErr.validationFailed (e :: es)), store)
      | [] =>
        let product := setField reqBody "productID" (Json.str event.pathId)
        ({ statusCode := 200, headers := headers, body := stringify product },
          dbPut store product)

/-- `deleteProduct`: confirm existence, delete by key, answer 204 with
an empty body. -/
def deleteProduct (event : APIGatewayProxyEvent) (store : Store) :
    APIGatewayProxyResult × Store :=
  match fetchProductById store event.pathId with
  | Except.error e => (handleError e, store)
  | Except.ok _ =>
    ({ statusCode := 204, headers := headers, body := "" },
      dbDelete store event.pathId)

/-- `listProduct`: scan the table and answer 200 with every item. -/
def listProduct (store : Store) : APIGatewayProxyResult :=
  { statusCode := 200, headers := headers,
    body := stringify (Json.arr (store.map (fun e => e.2))) }

/-- The execution of any of the handlers in which an awaited
`docClient` call rejects with a foreign error `e`: the `catch` block
of `createProduct`, `updateProduct` and `deleteProduct` hands the
caught value to `handleError`, whose fall-through returns it
unchanged, and `getProduct`'s own `catch` ends in the same verbatim
`return e`.  The response of such an execution is therefore the
foreign error itself. -/
def handlerSdkFailure (e : APIGatewayProxyResult) : APIGatewayProxyResult :=
  handleError (HandlerErr.unhandled e)

/-! ## Helper lemmas -/

/-- After `setFieldList`, looking the key up yields the new value. -/
theorem lookupField_setFieldList (fs : List (String × Json)) (key : String) (v : Json) :
    lookupField (setFieldList fs key v) key = some v := by
  induction fs with
  | nil => simp [setFieldList, lookupField]
  | cons e rest ih =>
    obtain ⟨k, v'⟩ := e
    by_cases h : k = key
    · simp [setFieldList, h, lookupField]
    · simp [setFieldList, h, lookupField, ih]

/-- After the spread `\x7b...j, key: v\x7d`, property `key` is `v`. -/
theorem getField_setField (j : Json) (key : String) (v : Json) :
    getField (setField j key v) key = some v := by
  cases j with
  | obj fs => simp [setField, getField, lookupField_setFieldList]
  | null => simp [setField, getField, lookupField]
  | bool b => simp [setField, getField, lookupField]
  | num q => simp [setField, getField, lookupField]
  | str s => simp [setField, getField, lookupField]
  | arr es => simp [setField, getField, lookupField]

/-- Reading back the key a `put` item carries yields that item. -/
theorem dbGet_dbPut_self (store : Store) (item : Json) (key : String)
    (h : getField item "productID" = some (Json.str key)) :
    dbGet (dbPut store item) key = some item := by
  simp [dbPut, h, dbGet]

/-- After deleting a key, `get` on it finds nothing. -/
theorem dbGet_dbDelete (store : Store) (id : String) :
    dbGet (dbDelete store id) id = none := by
  induction store with
  | nil => rfl
  | cons e rest ih =>
    obtain ⟨k, item⟩ := e
    by_cases h : k = id
    · simp [dbDelete, h, ih]
    · simp [dbDelete, h, dbGet, ih]

/-- `hexString w v` has exactly `w` characters. -/
theorem hexString_length (w v : Nat) : (hexString w v).length = w := by
  induction w generalizing v with
  | zero => rfl
  | succ w ih =>
    rw [hexString, String.length_append, ih]
    rfl

/-- A rendered v4 UUID always has the 36 characters of the
`8-4-4-4-12` format. -/
theorem uuidv4_length (n : Nat) : (uuidv4 n).length = 36 := by
  simp only [uuidv4, String.length_append, hexString_length]
  rfl

/-- `v4()` never returns the empty string. -/
theorem uuidv4_ne_empty (n : Nat) : uuidv4 n ≠ "" := by
  intro h
  have := uuidv4_length n
  rw [h] at this
  simp [String.length] at this

/-! ## Claim theorems -/

/-- C3: `getProduct` answers 404 with body `{"error":"not found"}`
exactly when the identifier is absent from the store, and 200 with the
record serialized as JSON when it is present. -/
theorem getProduct_found_and_notFound (ev : APIGatewayProxyEvent) (store : Store) :
    (dbGet store ev.pathId = none →
      getProduct ev store =
        { statusCode := 404, headers := headers, body := "\x7b\"error\":\"not found\"\x7d" })
    ∧ ∀ item, dbGet store ev.pathId = some item →
      getProduct ev store = { statusCode := 200, headers := headers, body := stringify item } := by
  constructor
  · intro h
    simp [getProduct, fetchProductById, h, handleError]
    rfl
  · intro item h
    simp [getProduct, fetchProductById, h]

/-- Witness for C3: both branches at concrete inputs. -/
theorem getProduct_found_and_notFound_witness :
    getProduct ⟨"missing", Except.ok Json.null⟩ [] =
      { statusCode := 404, headers := headers, body := "\x7b\"error\":\"not found\"\x7d" }
    ∧ getProduct ⟨"p1", Except.ok Json.null⟩ [("p1", Json.str "pen")] =
      { statusCode := 200, headers := headers, body := stringify (Json.str "pen") } :=
  ⟨(getProduct_found_and_notFound ⟨"missing", Except.ok Json.null⟩ []).1 rfl,
   (getProduct_found_and_notFound ⟨"p1", Except.ok Json.null⟩ [("p1", Json.str "pen")]).2
     (Json.str "pen") rfl⟩

/-- C1: for an existing identifier and a valid body, `updateProduct`
returns and stores the record with `productID` forced to the path
identifier, overwriting any `productID` the caller's body carried. -/
theorem updateProduct_forces_path_productID (ev : APIGatewayProxyEvent) (store : Store)
    (item reqBody : Json) (hex : dbGet store ev.pathId = some item)
    (hbody : ev.body = Except.ok reqBody) (hvalid : validateProduct reqBody = []) :
    (updateProduct ev store).1 =
      { statusCode := 200, headers := headers,
        body := stringify (setField reqBody "productID" (Json.str ev.pathId)) }
    ∧ dbGet (updateProduct ev store).2 ev.pathId =
        some (setField reqBody "productID" (Json.str ev.pathId))
    ∧ getField (setField reqBody "productID" (Json.str ev.pathId)) "productID" =
        some (Json.str ev.pathId) := by
  have hp := getField_setField reqBody "productID" (Json.str ev.pathId)
  refine ⟨?_, ?_, hp⟩
  · simp [updateProduct, fetchProductById, hex, hbody, hvalid]
  · simp [updateProduct, fetchProductById, hex, hbody, hvalid]
    exact dbGet_dbPut_self store _ ev.pathId hp

/-- Witness for C1: the caller's body carries `productID` `"other"`,
the path says `"p1"`; the stored and returned record carry `"p1"`. -/
theorem updateProduct_forces_path_productID_witness :
    ((updateProduct
        ⟨"p1", Except.ok (Json.obj [("name", Json.str "Pen"), ("description", Json.str "Blue ink"),
          ("price", Json.num 2), ("available", Json.bool true), ("productID", Json.str "other")])⟩
        [("p1", Json.str "old")]).1 =
      { statusCode := 200, headers := headers,
        body := stringify (setField
          (Json.obj [("name", Json.str "Pen"), ("description", Json.str "Blue ink"),
            ("price", Json.num 2), ("available", Json.bool true), ("productID", Json.str "other")])
          "productID" (Json.str "p1")) })
    ∧ dbGet (updateProduct
        ⟨"p1", Except.ok (Json.obj [("name", Json.str "Pen"), ("description", Json.str "Blue ink"),
          ("price", Json.num 2), ("available", Json.bool true), ("productID", Json.str "other")])⟩
        [("p1", Json.str "old")]).2 "p1" =
        some (setField
          (Json.obj [("name", Json.str "Pen"), ("description", Json.str "Blue ink"),
            ("price", Json.num 2), ("available", Json.bool true), ("productID", Json.str "other")])
          "productID" (Json.str "p1"))
    ∧ getField (setField
        (Json.obj [("name", Json.str "Pen"), ("description", Json.str "Blue ink"),
          ("price", Json.num 2), ("available", Json.bool true), ("productID", Json.str "other")])
        "productID" (Json.str "p1")) "productID" = some (Json.str "p1") :=
  updateProduct_forces_path_productID _ _ (Json.str "old") _ rfl rfl rfl

/-- C7: `deleteProduct` answers 404 when the identifier is absent, and
otherwise removes the record and answers 204 with an empty body. -/
theorem deleteProduct_spec (ev : APIGatewayProxyEvent) (store : Store) :
    (dbGet store ev.pathId = none →
      deleteProduct ev store =
        ({ statusCode := 404, headers := headers, body := "\x7b\"error\":\"not found\"\x7d" }, store))
    ∧ ∀ item, dbGet store ev.pathId = some item →
      deleteProduct ev store =
        ({ statusCode := 204, headers := headers, body := "" }, dbDelete store ev.pathId)
      ∧ dbGet (deleteProduct ev store).2 ev.pathId = none := by
  constructor
  · intro h
    simp [deleteProduct, fetchProductById, h, handleError]
    rfl
  · intro item h
    have hd : deleteProduct ev store =
        ({ statusCode := 204, headers := headers, body := "" }, dbDelete store ev.pathId) := by
      simp [deleteProduct, fetchProductById, h]
    exact ⟨hd, by rw [hd]; exact dbGet_dbDelete store ev.pathId⟩

/-- Witness for C7: both branches at concrete inputs. -/
theorem deleteProduct_spec_witness :
    deleteProduct ⟨"missing", Except.ok Json.null⟩ [] =
      ({ statusCode := 404, headers := headers, body := "\x7b\"error\":\"not found\"\x7d" }, [])
    ∧ (deleteProduct ⟨"p1", Except.ok Json.null⟩ [("p1", Json.str "pen")] =
        ({ statusCode := 204, headers := headers, body := "" }, dbDelete [("p1", Json.str "pen")] "p1")
      ∧ dbGet (deleteProduct ⟨"p1", Except.ok Json.null⟩ [("p1", Json.str "pen")]).2 "p1" = none) :=
  ⟨(deleteProduct_spec ⟨"missing", Except.ok Json.null⟩ []).1 rfl,
   (deleteProduct_spec ⟨"p1", Except.ok Json.null⟩ [("p1", Json.str "pen")]).2
     (Json.str "pen") rfl⟩

/-- C9: deleting an existing record then fetching the same identifier
on the resulting store yields the 404 not-found response. -/
theorem delete_then_get_yields_404 (ev : APIGatewayProxyEvent) (store : Store) (item : Json)
    (h : dbGet store ev.pathId = some item) :
    getProduct ev (deleteProduct ev store).2 =
      { statusCode := 404, headers := headers, body := "\x7b\"error\":\"not found\"\x7d" } := by
  have h2 : (deleteProduct ev store).2 = dbDelete store ev.pathId := by
    simp [deleteProduct, fetchProductById, h]
  rw [h2]
  simp [getProduct, fetchProductById, dbGet_dbDelete, handleError]
  rfl

/-- Witness for C9 at a concrete one-record store. -/
theorem delete_then_get_yields_404_witness :
    getProduct ⟨"p1", Except.ok Json.null⟩
        (deleteProduct ⟨"p1", Except.ok Json.null⟩ [("p1", Json.str "pen")]).2 =
      { statusCode := 404, headers := headers, body := "\x7b\"error\":\"not found\"\x7d" } :=
  delete_then_get_yields_404 ⟨"p1", Except.ok Json.null⟩ [("p1", Json.str "pen")]
    (Json.str "pen") rfl

/-- C2: `updateProduct` checks existence first: an absent identifier
yields the same 404 response as `getProduct`, whatever the body holds,
and for an existing identifier a failing validation yields 400 and
prevents the overwrite. -/
theorem updateProduct_existence_before_validation (ev : APIGatewayProxyEvent) (store : Store) :
    (dbGet store ev.pathId = none →
      (updateProduct ev store).1 = getProduct ev store
      ∧ (updateProduct ev store).1.statusCode = 404
      ∧ (updateProduct ev store).2 = store)
    ∧ ∀ item reqBody, dbGet store ev.pathId = some item →
        ev.body = Except.ok reqBody → validateProduct reqBody ≠ [] →
        (updateProduct ev store).1.statusCode = 400 ∧ (updateProduct ev store).2 = store := by
  constructor
  · intro h
    refine ⟨?_, ?_, ?_⟩ <;> simp [updateProduct, getProduct, fetchProductById, h, handleError]
  · intro item reqBody h hbody hval
    cases hv : validateProduct reqBody with
    | nil => exact absurd hv hval
    | cons e es =>
      constructor <;> simp [updateProduct, fetchProductById, h, hbody, hv, handleError]

/-- Witness for C2: a malformed body on an absent identifier still
answers 404; an empty object on an existing identifier answers 400 and
leaves the store as it was. -/
theorem updateProduct_existence_before_validation_witness :
    ((updateProduct ⟨"missing", Except.error "oops"⟩ []).1 =
        getProduct ⟨"missing", Except.error "oops"⟩ []
      ∧ (updateProduct ⟨"missing", Except.error "oops"⟩ []).1.statusCode = 404
      ∧ (updateProduct ⟨"missing", Except.error "oops"⟩ []).2 = [])
    ∧ ((updateProduct ⟨"p1", Except.ok (Json.obj [])⟩ [("p1", Json.str "pen")]).1.statusCode = 400
      ∧ (updateProduct ⟨"p1", Except.ok (Json.obj [])⟩ [("p1", Json.str "pen")]).2 =
          [("p1", Json.str "pen")]) :=
  ⟨(updateProduct_existence_before_validation ⟨"missing", Except.error "oops"⟩ []).1 rfl,
   (updateProduct_existence_before_validation ⟨"p1", Except.ok (Json.obj [])⟩
      [("p1", Json.str "pen")]).2 (Json.str "pen") (Json.obj []) rfl rfl (by decide)⟩

/-- C4: with a valid body, `createProduct` persists and returns (201)
the record made of the input fields plus a fresh `productID` — the
rendering of the drawn `v4()` bits, hence independent of the body and
never empty — overwriting any caller-supplied `productID`. -/
theorem createProduct_valid_body_spec (n : Nat) (ev : APIGatewayProxyEvent) (store : Store)
    (reqBody : Json) (hbody : ev.body = Except.ok reqBody)
    (hvalid : validateProduct reqBody = []) :
    (createProduct (uuidv4 n) ev store).1 =
      { statusCode := 201, headers := headers,
        body := stringify (setField reqBody "productID" (Json.str (uuidv4 n))) }
    ∧ getField (setField reqBody "productID" (Json.str (uuidv4 n))) "productID" =
        some (Json.str (uuidv4 n))
    ∧ uuidv4 n ≠ ""
    ∧ dbGet (createProduct (uuidv4 n) ev store).2 (uuidv4 n) =
        some (setField reqBody "productID" (Json.str (uuidv4 n))) := by
  have hp := getField_setField reqBody "productID" (Json.str (uuidv4 n))
  refine ⟨?_, hp, uuidv4_ne_empty n, ?_⟩
  · simp [createProduct, hbody, hvalid]
  · simp [createProduct, hbody, hvalid]
    exact dbGet_dbPut_self store _ _ hp

/-- Witness for C4: draw 0, a valid body carrying a rogue `productID`. -/
theorem createProduct_valid_body_spec_witness :
    (createProduct (uuidv4 0)
        ⟨"x", Except.ok (Json.obj [("name", Json.str "Pen"), ("description", Json.str "Blue ink"),
          ("price", Json.num 2), ("available", Json.bool true), ("productID", Json.str "rogue")])⟩
        []).1 =
      { statusCode := 201, headers := headers,
        body := stringify (setField
          (Json.obj [("name", Json.str "Pen"), ("description", Json.str "Blue ink"),
            ("price", Json.num 2), ("available", Json.bool true), ("productID", Json.str "rogue")])
          "productID" (Json.str (uuidv4 0))) }
    ∧ getField (setField
        (Json.obj [("name", Json.str "Pen"), ("description", Json.str "Blue ink"),
          ("price", Json.num 2), ("available", Json.bool true), ("productID", Json.str "rogue")])
        "productID" (Json.str (uuidv4 0))) "productID" = some (Json.str (uuidv4 0))
    ∧ uuidv4 0 ≠ ""
    ∧ dbGet (createProduct (uuidv4 0)
        ⟨"x", Except.ok (Json.obj [("name", Json.str "Pen"), ("description", Json.str "Blue ink"),
          ("price", Json.num 2), ("available", Json.bool true), ("productID", Json.str "rogue")])⟩
        []).2 (uuidv4 0) =
        some (setField
          (Json.obj [("name", Json.str "Pen"), ("description", Json.str "Blue ink"),
            ("price", Json.num 2), ("available", Json.bool true), ("productID", Json.str "rogue")])
          "productID" (Json.str (uuidv4 0))) :=
  createProduct_valid_body_spec 0 _ [] _ rfl rfl

/-- C5: a body that parses but fails validation makes `createProduct`
and, when the record exists, `updateProduct` answer 400 whose body
carries the full list of violation messages — the concatenation of one
check per schema field, not only the first violation. -/
theorem validation_errors_all_reported (freshId : String) (ev : APIGatewayProxyEvent)
    (store : Store) (reqBody : Json) (e : String) (es : List String)
    (hbody : ev.body = Except.ok reqBody)
    (hvalid : validateProduct reqBody = e :: es) :
    createProduct freshId ev store =
      ({ statusCode := 400, headers := headers,
         body := stringify (Json.obj [("errors", Json.arr ((e :: es).map Json.str))]) }, store)
    ∧ (∀ item, dbGet store ev.pathId = some item →
        updateProduct ev store =
          ({ statusCode := 400, headers := headers,
             body := stringify (Json.obj [("errors", Json.arr ((e :: es).map Json.str))]) }, store))
    ∧ ∀ fs, reqBody = Json.obj fs →
        e :: es = checkString "name" (lookupField fs "name")
          ++ checkString "description" (lookupField fs "description")
          ++ checkNumber "price" (lookupField fs "price")
          ++ checkBoolean "available" (lookupField fs "available") := by
  refine ⟨?_, ?_, ?_⟩
  · simp [createProduct, hbody, hvalid, handleError]
  · intro item h
    simp [updateProduct, fetchProductById, h, hbody, hvalid, handleError]
  · intro fs hfs
    rw [hfs] at hvalid
    simpa [validateProduct] using hvalid.symm

/-- Witness for C5: in `\x7b"name": 5\x7d` the name casts to `"5"` and
passes, while the three other required fields are missing; both
handlers report the three messages together. -/
theorem validation_errors_all_reported_witness :
    createProduct "fresh" ⟨"p1", Except.ok (Json.obj [("name", Json.num 5)])⟩
        [("p1", Json.str "pen")] =
      ({ statusCode := 400, headers := headers,
         body := stringify (Json.obj [("errors", Json.arr
           (("description is a required field" :: ["price is a required field",
             "available is a required field"]).map Json.str))]) },
        [("p1", Json.str "pen")])
    ∧ updateProduct ⟨"p1", Except.ok (Json.obj [("name", Json.num 5)])⟩
        [("p1", Json.str "pen")] =
      ({ statusCode := 400, headers := headers,
         body := stringify (Json.obj [("errors", Json.arr
           (("description is a required field" :: ["price is a required field",
             "available is a required field"]).map Json.str))]) },
        [("p1", Json.str "pen")])
    ∧ ("description is a required field" :: ["price is a required field",
        "available is a required field"]) =
        checkString "name" (lookupField [("name", Json.num 5)] "name")
          ++ checkString "description" (lookupField [("name", Json.num 5)] "description")
          ++ checkNumber "price" (lookupField [("name", Json.num 5)] "price")
          ++ checkBoolean "available" (lookupField [("name", Json.num 5)] "available") := by
  have h := validation_errors_all_reported "fresh"
    ⟨"p1", Except.ok (Json.obj [("name", Json.num 5)])⟩ [("p1", Json.str "pen")]
    (Json.obj [("name", Json.num 5)]) "description is a required field"
    ["price is a required field", "available is a required field"] rfl rfl
  exact ⟨h.1, h.2.1 (Json.str "pen") rfl, h.2.2 [("name", Json.num 5)] rfl⟩

/-- C6: a body `JSON.parse` rejects makes `createProduct` and, when the
record exists, `updateProduct` answer 400 with a message naming the
parse failure. -/
theorem malformed_json_maps_to_400 (freshId : String) (ev : APIGatewayProxyEvent)
    (store : Store) (m : String) (hbody : ev.body = Except.error m) :
    createProduct freshId ev store =
      ({ statusCode := 400, headers := headers,
         body := stringify (Json.obj [("errors",
           Json.str ("invalid request body format : " ++ m))]) }, store)
    ∧ ∀ item, dbGet store ev.pathId = some item →
        updateProduct ev store =
          ({ statusCode := 400, headers := headers,
             body := stringify (Json.obj [("errors",
               Json.str ("invalid request body format : " ++ m))]) }, store) := by
  constructor
  · simp [createProduct, hbody, handleError]
  · intro item h
    simp [updateProduct, fetchProductById, h, hbody, handleError]

/-- Witness for C6 with the parse message `"Unexpected token"`. -/
theorem malformed_json_maps_to_400_witness :
    createProduct "fresh" ⟨"p1", Except.error "Unexpected token"⟩ [("p1", Json.str "pen")] =
      ({ statusCode := 400, headers := headers,
         body := stringify (Json.obj [("errors",
           Json.str ("invalid request body format : " ++ "Unexpected token"))]) },
        [("p1", Json.str "pen")])
    ∧ updateProduct ⟨"p1", Except.error "Unexpected token"⟩ [("p1", Json.str "pen")] =
      ({ statusCode := 400, headers := headers,
         body := stringify (Json.obj [("errors",
           Json.str ("invalid request body format : " ++ "Unexpected token"))]) },
        [("p1", Json.str "pen")]) :=
  have h := malformed_json_maps_to_400 "fresh" ⟨"p1", Except.error "Unexpected token"⟩
    [("p1", Json.str "pen")] "Unexpected token" rfl
  ⟨h.1, h.2 (Json.str "pen") rfl⟩

/-- C8 counterexample: not every failure kind carries the header.
When an awaited `docClient` call rejects — the spec's own `Unhandled`
taxon, e.g. a store-connectivity failure — the catch's fall-through
returns the foreign error verbatim, and a foreign error carrying no
headers yields a response without `content-type: application/json`. -/
theorem responses_carry_json_content_type_cex :
    (handlerSdkFailure
        { statusCode := 500, headers := [], body := "connection reset" }).headers ≠
      [("content-type", "application/json")] := by
  decide

/-- C8 (amended): every response the five handlers produce through
their own formatting — every success and every translated failure
(404 not found, 400 validation error, 400 malformed JSON) — carries
`content-type: application/json`; a foreign unhandled failure is
returned verbatim and is exempt. -/
theorem responses_carry_json_content_type (freshId : String) (ev : APIGatewayProxyEvent)
    (store : Store) :
    headers = [("content-type", "application/json")]
    ∧ (createProduct freshId ev store).1.headers = headers
    ∧ (getProduct ev store).headers = headers
    ∧ (updateProduct ev store).1.headers = headers
    ∧ (deleteProduct ev store).1.headers = headers
    ∧ (listProduct store).headers = headers := by
  refine ⟨rfl, ?_, ?_, ?_, ?_, rfl⟩
  · cases hb : ev.body with
    | error m => simp [createProduct, hb, handleError]
    | ok reqBody =>
      cases hv : validateProduct reqBody with
      | nil => simp [createProduct, hb, hv]
      | cons e es => simp [createProduct, hb, hv, handleError]
  · cases hg : dbGet store ev.pathId with
    | none => simp [getProduct, fetchProductById, hg, handleError]
    | some item => simp [getProduct, fetchProductById, hg]
  · cases hg : dbGet store ev.pathId with
    | none => simp [updateProduct, fetchProductById, hg, handleError]
    | some item =>
      cases hb : ev.body with
      | error m => simp [updateProduct, fetchProductById, hg, hb, handleError]
      | ok reqBody =>
        cases hv : validateProduct reqBody with
        | nil => simp [updateProduct, fetchProductById, hg, hb, hv]
        | cons e es => simp [updateProduct, fetchProductById, hg, hb, hv, handleError]
  · cases hg : dbGet store ev.pathId with
    | none => simp [deleteProduct, fetchProductById, hg, handleError]
    | some item => simp [deleteProduct, fetchProductById, hg]

/-- C10: whenever `createProduct`, `updateProduct` or `deleteProduct`
answers a translated error (status 400 or 404), the store it returns
is the store it was given. -/
theorem error_paths_leave_store_unchanged (freshId : String) (ev : APIGatewayProxyEvent)
    (store : Store) :
    ((createProduct freshId ev store).1.statusCode = 400 ∨
        (createProduct freshId ev store).1.statusCode = 404 →
      (createProduct freshId ev store).2 = store)
    ∧ ((updateProduct ev store).1.statusCode = 400 ∨
        (updateProduct ev store).1.statusCode = 404 →
      (updateProduct ev store).2 = store)
    ∧ ((deleteProduct ev store).1.statusCode = 400 ∨
        (deleteProduct ev store).1.statusCode = 404 →
      (deleteProduct ev store).2 = store) := by
  refine ⟨?_, ?_, ?_⟩
  · cases hb : ev.body with
    | error m => intro _; simp [createProduct, hb]
    | ok reqBody =>
      cases hv : validateProduct reqBody with
      | nil => intro hc; exfalso; simp [createProduct, hb, hv] at hc
      | cons e es => intro _; simp [createProduct, hb, hv]
  · cases hg : dbGet store ev.pathId with
    | none => intro _; simp [updateProduct, fetchProductById, hg]
    | some item =>
      cases hb : ev.body with
      | error m => intro _; simp [updateProduct, fetchProductById, hg, hb]
      | ok reqBody =>
        cases hv : validateProduct reqBody with
        | nil =>
          intro hc; exfalso; simp [updateProduct, fetchProductById, hg, hb, hv] at hc
        | cons e es => intro _; simp [updateProduct, fetchProductById, hg, hb, hv]
  · cases hg : dbGet store ev.pathId with
    | none => intro _; simp [deleteProduct, fetchProductById, hg]
    | some item =>
      intro hc; exfalso; simp [deleteProduct, fetchProductById, hg] at hc

/-- Witness for C10: a malformed create, an absent-identifier update
and an absent-identifier delete each leave the (empty) store empty. -/
theorem error_paths_leave_store_unchanged_witness :
    (createProduct "fresh" ⟨"p", Except.error "bad"⟩ []).2 = ([] : Store)
    ∧ (updateProduct ⟨"missing", Except.ok Json.null⟩ []).2 = ([] : Store)
    ∧ (deleteProduct ⟨"missing", Except.ok Json.null⟩ []).2 = ([] : Store) :=
  ⟨(error_paths_leave_store_unchanged "fresh" ⟨"p", Except.error "bad"⟩ []).1 (Or.inl rfl),
   (error_paths_leave_store_unchanged "fresh" ⟨"missing", Except.ok Json.null⟩ []).2.1 (Or.inr rfl),
   (error_paths_leave_store_unchanged "fresh" ⟨"missing", Except.ok Json.null⟩ []).2.2 (Or.inr rfl)⟩
